import Mathlib

/-!
# Verification of the taina-tcc map viewer data pipeline

A shallow embedding of `src/App.jsx`: the source registry, the CSV
load/filter/aggregate pipeline, the icon caches, the asset resolver, the
viewport controller, and the marker-rendering step, together with theorems
settling the spec's claims about them.

Strings are Lean `String`s; JavaScript numbers are modelled as rationals
(`ℚ`), with `parseFloat` returning `Option ℚ` (`none` stands for `NaN`).
All inputs of interest are short decimal literals, which `ℚ` represents
exactly.
-/

/-- Whitespace recognized when skipping/trimming (ASCII subset of the
JavaScript whitespace set; the data files contain only ASCII). -/
def isWsChar (c : Char) : Bool :=
  c == ' ' || c == '\t' || c == '\n' || c == '\r'

/-- ASCII decimal digit test. -/
def isDigitChar (c : Char) : Bool :=
  48 ≤ c.toNat && c.toNat ≤ 57

/-- Numeric value of a digit list, most significant first. -/
def digitsVal (ds : List Char) : ℕ :=
  ds.foldl (fun a c => 10 * a + (c.toNat - 48)) 0

/-- Split a character list into its leading run of digits and the rest. -/
def spanDigits : List Char → List Char × List Char
  | [] => ([], [])
  | c :: cs =>
    if isDigitChar c then
      let p := spanDigits cs
      (c :: p.1, p.2)
    else ([], c :: cs)

/-- Parse an unsigned decimal mantissa (`Digits [. Digits]` or `. Digits`);
`none` when no digit is found, mirroring `parseFloat` yielding `NaN`.
Returns the value and the unconsumed input. -/
def parseMantissa (cs : List Char) : Option (ℚ × List Char) :=
  let ip := spanDigits cs
  match ip.2 with
  | '.' :: r2 =>
    let fp := spanDigits r2
    if ip.1.isEmpty && fp.1.isEmpty then none
    else some ((digitsVal ip.1 : ℚ) + (digitsVal fp.1 : ℚ) / (10 : ℚ) ^ fp.1.length, fp.2)
  | _ => if ip.1.isEmpty then none else some ((digitsVal ip.1 : ℚ), ip.2)

/-- Parse an exponent's digits after the `e`/`E` marker; `none` when the
marker is not followed by digits (in which case `parseFloat` ignores it). -/
def parseExpDigits (cs : List Char) : Option ℤ :=
  match cs with
  | '+' :: r => let d := spanDigits r; if d.1.isEmpty then none else some (digitsVal d.1 : ℤ)
  | '-' :: r => let d := spanDigits r; if d.1.isEmpty then none else some (-(digitsVal d.1 : ℤ))
  | r => let d := spanDigits r; if d.1.isEmpty then none else some (digitsVal d.1 : ℤ)

/-- Exponent value contributed by the input following the mantissa. -/
def parseExp (cs : List Char) : ℤ :=
  match cs with
  | 'e' :: r => (parseExpDigits r).getD 0
  | 'E' :: r => (parseExpDigits r).getD 0
  | _ => 0

/-- Ten to a (possibly negative) integer power, as a rational. -/
def powTen (e : ℤ) : ℚ :=
  if 0 ≤ e then ((10 : ℚ) ^ e.toNat) else 1 / (10 : ℚ) ^ (-e).toNat

/-- Model of JavaScript `parseFloat`: skip leading whitespace, optional
sign, decimal mantissa with optional exponent, ignore trailing garbage;
`none` models `NaN`. (The `Infinity` literal, never present in the data,
is outside the rational model.) -/
def jsParseFloat (s : String) : Option ℚ :=
  let cs := s.toList.dropWhile isWsChar
  match cs with
  | '+' :: r => (parseMantissa r).map (fun p => p.1 * powTen (parseExp p.2))
  | '-' :: r => (parseMantissa r).map (fun p => -(p.1 * powTen (parseExp p.2)))
  | r => (parseMantissa r).map (fun p => p.1 * powTen (parseExp p.2))

/-- Model of JavaScript `String.prototype.trim` on ASCII input. -/
def jsTrim (s : String) : String :=
  ⟨((s.toList.dropWhile isWsChar).reverse.dropWhile isWsChar).reverse⟩

/-- Model of `replace(/"/g, '')`: delete every double-quote character. -/
def stripQuotes (s : String) : String :=
  ⟨s.toList.filter (fun c => !(c == '"'))⟩

/-- JavaScript truthiness of a string: the empty string is falsy
(a missing field, `undefined`, is modelled as `""`, which is also falsy). -/
def truthyStr (s : String) : Bool :=
  !(s == "")

/-- The `photoName` computation of the render step (App.jsx line 528):
`item.Name?.replace(/"/g, '')?.trim() || item.Name?.trim() || ''`. -/
def photoNameOf (name : String) : String :=
  let a := jsTrim (stripQuotes name)
  if truthyStr a then a
  else
    let b := jsTrim name
    if truthyStr b then b else ""

/-- One record parsed from a source's CSV by the header-based parser.
A field absent from the row is the empty string (both `undefined` and
`""` are falsy, and every later operation treats them alike). -/
structure RawRow where
  X : String
  Y : String
  Name : String
deriving DecidableEq

/-- Load-time row filter (App.jsx lines 304-306):
`item.X && item.Y && item.Name`. -/
def validRow (r : RawRow) : Bool :=
  truthyStr r.X && truthyStr r.Y && truthyStr r.Name

/-- One entry of the source registry (App.jsx lines 25-201): a name, a
photo folder, and one of four categories. The `csvPath` thunk is the
fetch effect, modelled by the `FetchOutcome` fed to the loader. -/
structure Source where
  name : String
  imageFolder : String
  category : String
deriving DecidableEq

/-- Category → display color (App.jsx lines 17-22). -/
def categoryColors : List (String × String) :=
  [("total", "#0288d1"), ("duvida", "#7ca942"), ("parcial", "#fbc02d"), ("ruinas", "#9c27b0")]

/-- The static source registry `dataSources` (App.jsx lines 25-201):
7 municipalities × 4 categories. -/
def dataSources : List Source :=
  [ ⟨"aguas_vermelhas_total", "./data/aguas_vermelhas_total", "total"⟩,
    ⟨"aguas_vermelhas_duvida", "./data/aguas_vermelhas_duvida", "duvida"⟩,
    ⟨"aguas_vermelhas_parcial", "./data/aguas_vermelhas_parcial", "parcial"⟩,
    ⟨"aguas_vermelhas_ruinas", "./data/aguas_vermelhas_ruinas", "ruinas"⟩,
    ⟨"pajeu_total", "./data/pajeu_total", "total"⟩,
    ⟨"pajeu_duvida", "./data/pajeu_duvida", "duvida"⟩,
    ⟨"pajeu_parcial", "./data/pajeu_parcial", "parcial"⟩,
    ⟨"pajeu_ruinas", "./data/pajeu_ruinas", "ruinas"⟩,
    ⟨"pedra_azul_total", "./data/pedra_azul_total", "total"⟩,
    ⟨"pedra_azul_duvida", "./data/pedra_azul_duvida", "duvida"⟩,
    ⟨"pedra_azul_parcial", "./data/pedra_azul_parcial", "parcial"⟩,
    ⟨"pedra_azul_ruinas", "./data/pedra_azul_ruinas", "ruinas"⟩,
    ⟨"divisopolis_total", "./data/divisopolis_total", "total"⟩,
    ⟨"divisopolis_duvida", "./data/divisopolis_duvida", "duvida"⟩,
    ⟨"divisopolis_parcial", "./data/divisopolis_parcial", "parcial"⟩,
    ⟨"divisopolis_ruinas", "./data/divisopolis_ruinas", "ruinas"⟩,
    ⟨"divisa_alegre_total", "./data/divisa_alegre_total", "total"⟩,
    ⟨"divisa_alegre_duvida", "./data/divisa_alegre_duvida", "duvida"⟩,
    ⟨"divisa_alegre_parcial", "./data/divisa_alegre_parcial", "parcial"⟩,
    ⟨"divisa_alegre_ruinas", "./data/divisa_alegre_ruinas", "ruinas"⟩,
    ⟨"medina_total", "./data/medina_total", "total"⟩,
    ⟨"medina_duvida", "./data/medina_duvida", "duvida"⟩,
    ⟨"medina_parcial", "./data/medina_parcial", "parcial"⟩,
    ⟨"medina_ruinas", "./data/medina_ruinas", "ruinas"⟩,
    ⟨"comercinho_total", "./data/comercinho_total", "total"⟩,
    ⟨"comercinho_duvida", "./data/comercinho_duvida", "duvida"⟩,
    ⟨"comercinho_parcial", "./data/comercinho_parcial", "parcial"⟩,
    ⟨"comercinho_ruinas", "./data/comercinho_ruinas", "ruinas"⟩ ]

/-- A marker icon. `createColoredIcon` builds a fresh `L.divIcon` on each
call; object identity is modelled by the `buildId` token, distinct for
each of the four build sites in `categoryIcons`. Two lookups returning
equal `Icon` values model reference-identical JavaScript objects. -/
structure Icon where
  buildId : ℕ
  color : String
deriving DecidableEq

/-- Model of `createColoredIcon(color)` (App.jsx lines 209-224); the extra
`buildId` argument records which invocation built the object. -/
def createColoredIcon (buildId : ℕ) (color : String) : Icon :=
  ⟨buildId, color⟩

/-- The `categoryIcons` cache (App.jsx lines 227-230): one icon built per category,
keyed by category name. -/
def categoryIcons : List (String × Icon) :=
  categoryColors.enum.map (fun p => (p.2.1, createColoredIcon p.1 p.2.2))

/-- The `sourceIcons` cache (App.jsx lines 233-236): source name ↦ its category's
(already built) icon. Every registry category is a `categoryColors` key,
so the lookup never misses and `filterMap` drops nothing. -/
def sourceIcons : List (String × Icon) :=
  dataSources.filterMap (fun s => (List.lookup s.category categoryIcons).map (fun i => (s.name, i)))

/-- Icon resolution at render time (App.jsx line 537):
`sourceIcons[item.source] || sourceIcons['aguas_vermelhas_total']`. -/
def iconFor (name : String) : Option Icon :=
  match List.lookup name sourceIcons with
  | some i => some i
  | none => List.lookup "aguas_vermelhas_total" sourceIcons

/-- Whether the needle occurs as a contiguous prefix of the haystack. -/
def isPrefixChars : List Char → List Char → Bool
  | [], _ => true
  | _ :: _, [] => false
  | a :: as, b :: bs => a == b && isPrefixChars as bs

/-- Model of JavaScript `String.prototype.includes`. -/
def containsSub : List Char → List Char → Bool
  | hay, needle =>
    match hay with
    | [] => needle.isEmpty
    | _ :: t => isPrefixChars needle hay || containsSub t needle

/-- Model of `hay.includes(needle)` on strings. -/
def strIncludes (hay needle : String) : Bool :=
  containsSub hay.toList needle.toList

/-- The substring searched for by the asset resolver:
`` `${folderName}/${photoName}.png` `` (App.jsx line 253). -/
def assetKey (folderName photoName : String) : String :=
  folderName ++ "/" ++ photoName ++ ".png"

/-- Model of `getImagePath` (App.jsx lines 249-259): first pre-indexed module whose
path contains the key as a substring, else the constructed relative path.
The index is a path ↦ resolved-module association list. -/
def getImagePath (imageModules : List (String × String)) (folderName photoName : String) : String :=
  match imageModules.find? (fun p => strIncludes p.1 (assetKey folderName photoName)) with
  | some p => p.2
  | none => "./data/" ++ folderName ++ "/" ++ photoName ++ ".png"

/-- A row after the loader's transform (App.jsx lines 309-313): the raw
fields plus the owning source's name and folder. -/
structure Row where
  X : String
  Y : String
  Name : String
  source : String
  folder : String
deriving DecidableEq

/-- The loader's per-row transform: `{...item, source: source.name,
folder: source.imageFolder}`. -/
def tagRow (s : Source) (r : RawRow) : Row :=
  ⟨r.X, r.Y, r.Name, s.name, s.imageFolder⟩

/-- Outcome of one source's fetch-and-parse attempt: the parsed table on
success, or the `catch`/`error` paths of `loadAllData`. -/
inductive FetchOutcome where
  | success (rows : List RawRow)
  | fetchError
  | parseError
deriving DecidableEq

/-- An outcome on which the attempt produced no table. -/
def isFailure : FetchOutcome → Bool
  | .success _ => false
  | .fetchError => true
  | .parseError => true

/-- One entry of the published loaded-data mapping:
`{source: source.name, data: ...}`. -/
structure SourceData where
  source : String
  data : List Row
deriving DecidableEq

/-- One source's attempt (App.jsx lines 292-338): on success filter with
`validRow` and tag each row; on fetch or parse failure resolve with an
empty row list instead of rejecting. -/
def loadSource (s : Source) (o : FetchOutcome) : SourceData :=
  match o with
  | .success rows => ⟨s.name, (rows.filter validRow).map (tagRow s)⟩
  | .fetchError => ⟨s.name, []⟩
  | .parseError => ⟨s.name, []⟩

/-- Model of `loadAllData` (App.jsx lines 291-355): every source is attempted, the
join-all barrier (`Promise.allSettled`) waits for all outcomes, and the
full mapping is published at once (`setAllData`). The function consumes
the complete outcome list, one outcome per source. -/
def loadAllData (outcomes : List FetchOutcome) : List SourceData :=
  List.zipWith loadSource dataSources outcomes

/-- Model of `getAllMarkers` (App.jsx lines 361-370): flatten every entry's rows,
re-tagging each with its entry's source name. -/
def getAllMarkers (allData : List SourceData) : List Row :=
  allData.flatMap (fun sd => sd.data.map (fun item => { item with source := sd.source }))

/-- A rendered map marker: parsed coordinates, normalized photo name,
owning source. -/
structure Marker where
  lat : ℚ
  lng : ℚ
  photoName : String
  source : String
deriving DecidableEq

/-- The render step for one row (App.jsx lines 524-534): parse `Y` as
latitude and `X` as longitude, normalize the photo name, and skip the row
(`return null`) when either coordinate is `NaN` or the name is empty. -/
def renderMarker (item : Row) : Option Marker :=
  match jsParseFloat item.Y, jsParseFloat item.X with
  | some lat, some lng =>
    let pn := photoNameOf item.Name
    if truthyStr pn then some ⟨lat, lng, pn, item.source⟩ else none
  | some _, none => none
  | none, _ => none

/-- Markers actually rendered from the aggregated row list (skipped rows
contribute nothing). -/
def renderMarkers (items : List Row) : List Marker :=
  items.filterMap renderMarker

/-- The constant `defaultMapCenter` (App.jsx line 373). -/
def defaultMapCenter : ℚ × ℚ :=
  (-(15970749238323208 : ℚ) / 10 ^ 15, -(4137616932392121 : ℚ) / 10 ^ 14)

/-- The constant `defaultMapZoom` (App.jsx line 374). -/
def defaultMapZoom : ℕ := 11

/-- What the app's top-level conditional renders: the map (with its center
prop, zoom prop, and marker children) or the loading placeholder. -/
inductive AppView where
  | loading
  | mapView (center : ℚ × ℚ) (zoom : ℕ) (markers : List Marker)
deriving DecidableEq

/-- The render of `App` (App.jsx lines 490-576): if the aggregated row
list is non-empty, a `MapContainer` centered at the constant
`defaultMapCenter` with the renderable markers; otherwise the
`Loading map data...` placeholder. -/
def renderApp (allData : List SourceData) : AppView :=
  let ms := getAllMarkers allData
  if ms.length > 0 then AppView.mapView defaultMapCenter defaultMapZoom (renderMarkers ms)
  else AppView.loading

/-- A requested view: center plus zoom (the `mapView` state's value). -/
structure ViewportRequest where
  lat : ℚ
  lng : ℚ
  zoom : ℕ
deriving DecidableEq

/-- The seven navigation controls (App.jsx lines 446-487), one per
municipality button. -/
inductive NavControl where
  | aguasVermelhas
  | cachoeirasDePajeu
  | pedraAzul
  | divisopolis
  | divisaAlegre
  | medina
  | comercinho
deriving DecidableEq

/-- The fixed (center, zoom) pair each control's handler passes to
`setMapView` (App.jsx lines 376-430). -/
def navTarget : NavControl → ViewportRequest
  | .aguasVermelhas => ⟨-(15747276984466714 : ℚ) / 10 ^ 15, -(41462284326553345 : ℚ) / 10 ^ 15, 16⟩
  | .cachoeirasDePajeu => ⟨-(15967002368268744 : ℚ) / 10 ^ 15, -(41497163772583015 : ℚ) / 10 ^ 15, 16⟩
  | .pedraAzul => ⟨-(16000729316063108 : ℚ) / 10 ^ 15, -(4127851009368897 : ℚ) / 10 ^ 14, 15⟩
  | .divisopolis => ⟨-(15721832530767715 : ℚ) / 10 ^ 15, -(41002779006958015 : ℚ) / 10 ^ 15, 15⟩
  | .divisaAlegre => ⟨-(15719519167724359 : ℚ) / 10 ^ 15, -(4134444952011109 : ℚ) / 10 ^ 14, 15⟩
  | .medina => ⟨-(16225450255119004 : ℚ) / 10 ^ 15, -(41477926969528205 : ℚ) / 10 ^ 15, 16⟩
  | .comercinho => ⟨-(1629722075378317 : ℚ) / 10 ^ 14, -(4179539322853089 : ℚ) / 10 ^ 14, 16⟩

/-- The municipality key each control's handler passes to
`setSelectedMunicipio`. -/
def navMunicipio : NavControl → String
  | .aguasVermelhas => "aguas_vermelhas"
  | .cachoeirasDePajeu => "pajeu"
  | .pedraAzul => "pedra_azul"
  | .divisopolis => "divisopolis"
  | .divisaAlegre => "divisa_alegre"
  | .medina => "medina"
  | .comercinho => "comercinho"

/-- The photo-overlay payload built by a marker's click handler
(App.jsx lines 546-552). -/
structure PhotoSel where
  foto : String
  path : String
  lat : ℚ
  lng : ℚ
  source : String
deriving DecidableEq

/-- The interactive component state of `App`:
`mapView`, `selectedMunicipio` and `selectedPhoto` (all start `null`). -/
structure AppState where
  mapView : Option ViewportRequest
  selectedMunicipio : Option String
  selectedPhoto : Option PhotoSel
deriving DecidableEq

/-- A user action handled by `App`: clicking a navigation control,
clicking a marker (or its popup button), or dismissing the photo overlay
(close button or clicking outside). -/
inductive UserAction where
  | navClick (c : NavControl)
  | markerClick (p : PhotoSel)
  | closePhoto
deriving DecidableEq

/-- State transition of `App` for one user action: the navigation
handlers overwrite `mapView` and `selectedMunicipio`; the marker and
overlay handlers touch only `selectedPhoto`. -/
def step : UserAction → AppState → AppState
  | .navClick c, s => { s with mapView := some (navTarget c), selectedMunicipio := some (navMunicipio c) }
  | .markerClick p, s => { s with selectedPhoto := some p }
  | .closePhoto, s => { s with selectedPhoto := none }

/-- The view shown by the live map once `MapController`'s effect has run
(App.jsx lines 271-281, 513-519): when a `mapView` request is active,
`map.setView(center, zoom)` applies it; otherwise the map still shows its
initial props, the default center and zoom. -/
def renderedView (s : AppState) : ViewportRequest :=
  match s.mapView with
  | some r => r
  | none => ⟨defaultMapCenter.1, defaultMapCenter.2, defaultMapZoom⟩

/-- Minimum of a rational list (0 for the empty list, which is never
used on it). -/
def listMin : List ℚ → ℚ
  | [] => 0
  | x :: xs => xs.foldl min x

/-- Maximum of a rational list (0 for the empty list, which is never
used on it). -/
def listMax : List ℚ → ℚ
  | [] => 0
  | x :: xs => xs.foldl max x

/-- Modelled from the spec: the claimed default center, i.e. the
bounding-box midpoint `((min_lat+max_lat)/2, (min_lng+max_lng)/2)` over
all current markers, and the fixed fallback coordinate for zero markers.
No such computation exists in App.jsx; this definition follows the spec's
words, for comparison with the code's constant center. -/
def specDefaultCenter (ms : List Marker) : ℚ × ℚ :=
  match ms with
  | [] => defaultMapCenter
  | m :: rest =>
    let lats := (m :: rest).map Marker.lat
    let lngs := (m :: rest).map Marker.lng
    ((listMin lats + listMax lats) / 2, (listMin lngs + listMax lngs) / 2)

/-- The first registry source, used for concrete scenarios. -/
def srcAguasTotal : Source :=
  ⟨"aguas_vermelhas_total", "./data/aguas_vermelhas_total", "total"⟩

/-- First row of the C5 scenario: `X=-41.46,Y=-15.75,Name="A"`. -/
def c5row1 : RawRow := ⟨"-41.46", "-15.75", "\"A\""⟩

/-- Second row of the C5 scenario: `X=,Y=-15.80,Name=B`. -/
def c5row2 : RawRow := ⟨"", "-15.80", "B"⟩

/-- A row whose `X` is a single space: truthy, yet blank after trimming. -/
def rowSpaceX : RawRow := ⟨" ", "-15.80", "B"⟩

/-- A row whose `Name` is exactly two double-quote characters. -/
def quoteOnlyRow : RawRow := ⟨"-41.46", "-15.75", "\"\""⟩

/-- A row whose `X` does not parse as a number. -/
def rowBadX : RawRow := ⟨"abc", "-15.75", "A"⟩

/-- Outcome list in which every source's fetch fails. -/
def allFailOutcomes : List FetchOutcome :=
  List.replicate 28 FetchOutcome.fetchError

/-- Outcome list in which the first source yields the single C5 row and
every other source fails. -/
def oneRowOutcomes : List FetchOutcome :=
  FetchOutcome.success [c5row1] :: List.replicate 27 FetchOutcome.fetchError

/-- The marker the C5 scenario's first row renders to. -/
def c5marker : Marker :=
  ⟨-(1575 : ℚ) / 100, -(4146 : ℚ) / 100, "A", "aguas_vermelhas_total"⟩
/-- A failed attempt always publishes an empty row list for its source. -/
theorem loadSource_fail (s : Source) (o : FetchOutcome) (h : isFailure o = true) :
    loadSource s o = ⟨s.name, []⟩ := by
  cases o with
  | success rows => simp [isFailure] at h
  | fetchError => rfl
  | parseError => rfl

/-- The filter `validRow` unfolded to plain non-emptiness of the three fields. -/
theorem validRow_iff (r : RawRow) :
    validRow r = true ↔ (r.X ≠ "" ∧ r.Y ≠ "" ∧ r.Name ≠ "") := by
  simp [validRow, truthyStr, Bool.and_eq_true, and_assoc]

/-- The loader's per-row tagging is injective for a fixed source. -/
theorem tagRow_inj (s : Source) (r r' : RawRow) (h : tagRow s r' = tagRow s r) :
    r' = r := by
  cases r; cases r'
  simpa [tagRow, Row.mk.injEq, RawRow.mk.injEq] using h

/-- If a string trims to empty, every character of it is whitespace. -/
theorem jsTrim_eq_empty_all_ws (s : String) (h : jsTrim s = "") :
    ∀ c ∈ s.toList, isWsChar c = true := by
  have hl : ((s.toList.dropWhile isWsChar).reverse.dropWhile isWsChar).reverse = [] := by
    simpa [jsTrim] using congrArg String.data h
  rw [List.reverse_eq_nil_iff] at hl
  have hdrop : ∀ c ∈ s.toList.dropWhile isWsChar, isWsChar c = true := by
    intro c hc
    exact List.dropWhile_eq_nil_iff.mp hl c (List.mem_reverse.mpr hc)
  intro c hc
  rw [← List.takeWhile_append_dropWhile isWsChar s.toList] at hc
  rcases List.mem_append.mp hc with h1 | h2
  · exact List.mem_takeWhile_imp h1
  · exact hdrop c h2

/-- Deleting double quotes from an all-whitespace string changes nothing. -/
theorem stripQuotes_all_ws (s : String) (h : ∀ c ∈ s.toList, isWsChar c = true) :
    stripQuotes s = s := by
  apply String.ext
  show s.toList.filter _ = s.data
  apply List.filter_eq_self.mpr
  intro c hc
  have hw := h c hc
  have hc' : c = ' ' ∨ c = '\t' ∨ c = '\n' ∨ c = '\r' := by
    simpa [isWsChar, Bool.or_eq_true, beq_iff_eq, or_assoc] using hw
  rcases hc' with rfl | rfl | rfl | rfl <;> decide

/-- A whitespace-only `Name` normalizes to the empty photo name: both the
quote-stripped trim and the fallback plain trim are empty. -/
theorem photoNameOf_all_ws (s : String) (h : jsTrim s = "") : photoNameOf s = "" := by
  have hsq : stripQuotes s = s := stripQuotes_all_ws s (jsTrim_eq_empty_all_ws s h)
  simp [photoNameOf, hsq, h, truthyStr]

set_option maxRecDepth 20000

/-- C4 (corrected). The load-time filter keeps exactly the rows whose
`X`, `Y` and `Name` are non-empty strings as they stand in the file: no
trimming and no quote normalization happen before the truthiness test, so
inclusion in the aggregated marker sequence is plain non-emptiness. -/
theorem C4_filter_is_plain_truthiness (s : Source) (rows : List RawRow) (r : RawRow) :
    tagRow s r ∈ (loadSource s (FetchOutcome.success rows)).data ↔
      (r ∈ rows ∧ (r.X ≠ "" ∧ r.Y ≠ "" ∧ r.Name ≠ "")) := by
  constructor
  · intro h
    simp only [loadSource, List.mem_map] at h
    rcases h with ⟨r', hr', heq⟩
    rw [tagRow_inj s r r' heq] at hr'
    have hm := List.mem_filter.mp hr'
    exact ⟨hm.1, (validRow_iff r).mp hm.2⟩
  · intro h
    simp only [loadSource, List.mem_map]
    exact ⟨r, List.mem_filter.mpr ⟨h.1, (validRow_iff r).mpr h.2⟩, rfl⟩

/-- C4 witness: the C5 scenario row with all three fields non-empty is
included. -/
theorem C4_filter_is_plain_truthiness_witness :
    (c5row1 ∈ [c5row1] ∧ (c5row1.X ≠ "" ∧ c5row1.Y ≠ "" ∧ c5row1.Name ≠ ""))
      ∧ tagRow srcAguasTotal c5row1
          ∈ (loadSource srcAguasTotal (FetchOutcome.success [c5row1])).data :=
  ⟨by decide,
    (C4_filter_is_plain_truthiness srcAguasTotal [c5row1] c5row1).mpr (by decide)⟩

/-- C4 counterexample: the row `X=" ",Y=-15.80,Name=B` has an `X` that is
blank after trimming, yet it IS included in the aggregated marker
sequence, because the filter tests raw truthiness of the untrimmed field.
This refutes the claimed iff with trimming/normalization. -/
theorem C4_counterexample :
    tagRow srcAguasTotal rowSpaceX
        ∈ (loadSource srcAguasTotal (FetchOutcome.success [rowSpaceX])).data
      ∧ jsTrim rowSpaceX.X = "" := by
  exact ⟨by decide, by decide⟩

/-- C5 (confirmed). The two-row scenario: only `X=-41.46,Y=-15.75,
Name="A"` survives the filter, and it renders to exactly one marker at
latitude `-15.75` (from `Y`), longitude `-41.46` (from `X`), with photo
identifier `A` (surrounding quotes stripped); the second row (`X` empty)
contributes nothing. -/
theorem C5_two_row_scenario :
    (loadSource srcAguasTotal (FetchOutcome.success [c5row1, c5row2])).data
        = [tagRow srcAguasTotal c5row1]
      ∧ renderMarker (tagRow srcAguasTotal c5row1) = some c5marker
      ∧ renderMarkers ((loadSource srcAguasTotal (FetchOutcome.success [c5row1, c5row2])).data)
          = [c5marker] := by
  refine ⟨by decide, by with_unfolding_all decide, by with_unfolding_all decide⟩

/-- C10 (corrected). A row that passed the load-time filter is silently
skipped by the render step — with no error and no effect on the other
rows — when `X` or `Y` fails to parse as a decimal number or when `Name`
is whitespace-only. (A `Name` consisting of quotation characters is NOT
skipped: the `|| item.Name?.trim()` fallback resurrects it, quotes kept —
see the counterexample.) -/
theorem C10_render_skips_silently (r : Row) (rest : List Row)
    (hvalid : validRow ⟨r.X, r.Y, r.Name⟩ = true)
    (h : jsParseFloat r.X = none ∨ jsParseFloat r.Y = none ∨ jsTrim r.Name = "") :
    renderMarker r = none ∧ renderMarkers (r :: rest) = renderMarkers rest := by
  have hnone : renderMarker r = none := by
    rcases h with hx | hy | hn
    · cases hY : jsParseFloat r.Y <;> simp [renderMarker, hY, hx]
    · simp [renderMarker, hy]
    · have hpn := photoNameOf_all_ws r.Name hn
      cases hY : jsParseFloat r.Y <;> cases hX : jsParseFloat r.X <;>
        simp [renderMarker, hY, hX, hpn, truthyStr]
  refine ⟨hnone, ?_⟩
  simp [renderMarkers, List.filterMap_cons, hnone]

/-- C10 witness: the row `X=abc,Y=-15.75,Name=A` passes the filter, its
`X` does not parse, and the render step drops it without touching the
rest. -/
theorem C10_render_skips_silently_witness :
    validRow ⟨"abc", "-15.75", "A"⟩ = true
      ∧ renderMarker (tagRow srcAguasTotal rowBadX) = none
      ∧ renderMarkers [tagRow srcAguasTotal rowBadX] = renderMarkers [] :=
  ⟨by decide,
    (C10_render_skips_silently (tagRow srcAguasTotal rowBadX) [] (by decide)
      (Or.inl (by decide))).1,
    (C10_render_skips_silently (tagRow srcAguasTotal rowBadX) [] (by decide)
      (Or.inl (by decide))).2⟩

/-- C10 counterexample: the row `X=-41.46,Y=-15.75,Name=""""` (a `Name`
consisting solely of two quotation characters) passes the load-time
filter AND the render step produces a marker for it — with the quotes
retained as the photo name — contradicting the claim that such rows
yield no marker. -/
theorem C10_counterexample :
    validRow quoteOnlyRow = true
      ∧ renderMarker (tagRow srcAguasTotal quoteOnlyRow)
          = some ⟨-(1575 : ℚ) / 100, -(4146 : ℚ) / 100, "\"\"", "aguas_vermelhas_total"⟩ := by
  constructor
  · decide
  · with_unfolding_all decide

/-- C1 (corrected). Whenever the aggregated row list is non-empty, the
map renders with its center equal to the fixed constant
`defaultMapCenter` — the code computes no bounding box at all. -/
theorem C1_default_center_is_constant (allData : List SourceData)
    (h : getAllMarkers allData ≠ []) :
    renderApp allData
      = AppView.mapView defaultMapCenter defaultMapZoom
          (renderMarkers (getAllMarkers allData)) := by
  have hl : 0 < (getAllMarkers allData).length := List.length_pos.mpr h
  simp [renderApp, hl]

/-- C1 witness: a load in which the first source yields one row renders
the map centered at the fixed constant. -/
theorem C1_default_center_is_constant_witness :
    getAllMarkers (loadAllData oneRowOutcomes) ≠ []
      ∧ renderApp (loadAllData oneRowOutcomes)
          = AppView.mapView defaultMapCenter defaultMapZoom
              (renderMarkers (getAllMarkers (loadAllData oneRowOutcomes))) :=
  ⟨by decide, C1_default_center_is_constant _ (by decide)⟩

/-- C1 counterexample: with exactly one marker at `(-15.75, -41.46)` the
bounding-box midpoint claimed by the spec is `(-15.75, -41.46)` itself,
yet the rendered center is the fixed constant, which differs — so for
this non-empty marker sequence the default center is NOT the bounding-box
midpoint. -/
theorem C1_counterexample :
    getAllMarkers (loadAllData oneRowOutcomes) = [tagRow srcAguasTotal c5row1]
      ∧ renderApp (loadAllData oneRowOutcomes)
          = AppView.mapView defaultMapCenter defaultMapZoom [c5marker]
      ∧ specDefaultCenter [c5marker] ≠ defaultMapCenter := by
  have h1 : getAllMarkers (loadAllData oneRowOutcomes) = [tagRow srcAguasTotal c5row1] := by
    decide
  have h2 : renderMarkers [tagRow srcAguasTotal c5row1] = [c5marker] := by
    with_unfolding_all decide
  refine ⟨h1, ?_, by with_unfolding_all decide⟩
  simp [renderApp, h1, h2]

/-- Every entry built by zipping the registry with all-failing outcomes
carries an empty row list. -/
theorem zipWith_loadSource_all_fail (ss : List Source) (os : List FetchOutcome)
    (hfail : ∀ o ∈ os, isFailure o = true) :
    ∀ sd ∈ List.zipWith loadSource ss os, sd.data = [] := by
  induction ss generalizing os with
  | nil => intro sd hsd; simp at hsd
  | cons s ss ih =>
    intro sd hsd
    cases os with
    | nil => simp at hsd
    | cons o os' =>
      rw [List.zipWith_cons_cons] at hsd
      rcases List.mem_cons.mp hsd with h | h
      · rw [h, loadSource_fail s o (hfail o (List.mem_cons_self o os'))]
      · exact ih os' (fun o' ho' => hfail o' (List.mem_cons_of_mem o ho')) sd h

/-- C2 (corrected). When every source's attempt fails, the published
mapping holds an empty row list per source, the aggregated marker
sequence is empty, and the UI keeps showing the loading placeholder — it
does NOT render an empty map at the fallback center. -/
theorem C2_all_fail_shows_loading (outcomes : List FetchOutcome)
    (hlen : outcomes.length = dataSources.length)
    (hfail : ∀ o ∈ outcomes, isFailure o = true) :
    (∀ sd ∈ loadAllData outcomes, sd.data = [])
      ∧ getAllMarkers (loadAllData outcomes) = []
      ∧ renderApp (loadAllData outcomes) = AppView.loading := by
  have h1 : ∀ sd ∈ loadAllData outcomes, sd.data = [] :=
    zipWith_loadSource_all_fail dataSources outcomes hfail
  have h2 : getAllMarkers (loadAllData outcomes) = [] := by
    simp only [getAllMarkers]
    apply List.flatMap_eq_nil_iff.mpr
    intro sd hsd
    rw [h1 sd hsd]
    rfl
  exact ⟨h1, h2, by simp [renderApp, h2]⟩

/-- C2 witness: the all-fetch-failures outcome list satisfies the
hypotheses and indeed leaves the loading placeholder on screen. -/
theorem C2_all_fail_shows_loading_witness :
    allFailOutcomes.length = dataSources.length
      ∧ (∀ o ∈ allFailOutcomes, isFailure o = true)
      ∧ renderApp (loadAllData allFailOutcomes) = AppView.loading :=
  ⟨by decide, by decide,
    (C2_all_fail_shows_loading allFailOutcomes (by decide) (by decide)).2.2⟩

/-- C2 counterexample: after all 28 sources fail, the app renders the
loading placeholder, which is a different view from the empty map at the
fallback center claimed by the spec. -/
theorem C2_counterexample :
    renderApp (loadAllData allFailOutcomes) = AppView.loading
      ∧ AppView.loading ≠ AppView.mapView defaultMapCenter defaultMapZoom [] := by
  exact ⟨by decide, by simp⟩

/-- Indexing a `zipWith` is the pointwise combination of indexing both
lists. -/
theorem zipWith_getElem? {α β γ : Type} (f : α → β → γ) (as : List α) (bs : List β) (i : ℕ) :
    (List.zipWith f as bs)[i]? = as[i]?.bind (fun a => bs[i]?.map (f a)) := by
  induction as generalizing bs i with
  | nil => simp
  | cons a as ih =>
    cases bs with
    | nil => simp
    | cons b bs =>
      cases i with
      | zero => simp
      | succ n => simpa using ih bs n

/-- C3 (confirmed). If source `i`'s attempt fails, the published mapping
still holds an entry for that source, with an empty row list; and every
other index `j` of the mapping is exactly what it would have been had
source `i` succeeded (with any row list `rows`). Publication happens only
after the join-all barrier: `loadAllData` consumes the complete outcome
list, one resolved outcome per source, before any entry is visible. -/
theorem C3_failure_isolated (outcomes : List FetchOutcome) (rows : List RawRow) (i j : ℕ)
    (hlen : outcomes.length = dataSources.length)
    (hfail : ∃ o, outcomes[i]? = some o ∧ isFailure o = true)
    (hne : j ≠ i) :
    (loadAllData outcomes)[i]? = (dataSources[i]?).map (fun s => SourceData.mk s.name [])
      ∧ (loadAllData outcomes)[j]?
          = (loadAllData (outcomes.set i (FetchOutcome.success rows)))[j]? := by
  obtain ⟨o, ho, hfo⟩ := hfail
  constructor
  · rw [loadAllData, zipWith_getElem?, ho]
    have hi : i < outcomes.length := by
      by_contra hlt
      push_neg at hlt
      rw [List.getElem?_eq_none hlt] at ho
      exact Option.noConfusion ho
    have hi' : i < dataSources.length := hlen ▸ hi
    rw [List.getElem?_eq_getElem hi']
    simp [loadSource_fail _ o hfo]
  · rw [loadAllData, loadAllData, zipWith_getElem?, zipWith_getElem?,
      List.getElem?_set_ne (fun h => hne h.symm)]

/-- C3 witness: with the first source failing and the rest succeeding
with no rows, entry 0 is present and empty, and entry 1 agrees with the
mapping in which source 0 succeeded instead. -/
theorem C3_failure_isolated_witness :
    (FetchOutcome.fetchError :: List.replicate 27 (FetchOutcome.success [])).length
        = dataSources.length
      ∧ (loadAllData (FetchOutcome.fetchError :: List.replicate 27 (FetchOutcome.success [])))[0]?
          = (dataSources[0]?).map (fun s => SourceData.mk s.name [])
      ∧ (loadAllData (FetchOutcome.fetchError :: List.replicate 27 (FetchOutcome.success [])))[1]?
          = (loadAllData ((FetchOutcome.fetchError :: List.replicate 27 (FetchOutcome.success [])).set 0
              (FetchOutcome.success [c5row1])))[1]? :=
  ⟨by decide,
    (C3_failure_isolated (FetchOutcome.fetchError :: List.replicate 27 (FetchOutcome.success []))
      [c5row1] 0 1 (by decide) ⟨FetchOutcome.fetchError, rfl, rfl⟩ (by decide)).1,
    (C3_failure_isolated (FetchOutcome.fetchError :: List.replicate 27 (FetchOutcome.success []))
      [c5row1] 0 1 (by decide) ⟨FetchOutcome.fetchError, rfl, rfl⟩ (by decide)).2⟩

/-- For every registry source, looking its name up in `sourceIcons` gives
exactly its category's pre-built icon, and the lookup never misses. -/
theorem sourceIcons_lookup_by_category :
    ∀ s ∈ dataSources,
      List.lookup s.name sourceIcons = List.lookup s.category categoryIcons
        ∧ (List.lookup s.name sourceIcons).isSome = true := by decide

/-- C6 (confirmed). Two registry sources sharing a category resolve to
the same `Icon` value — same `buildId`, i.e. the one object built by the
single `createColoredIcon` call for that category — and the lookup is a
plain association on the source name. -/
theorem C6_shared_category_same_icon (s1 s2 : Source)
    (h1 : s1 ∈ dataSources) (h2 : s2 ∈ dataSources)
    (hcat : s1.category = s2.category) :
    List.lookup s1.name sourceIcons = List.lookup s2.name sourceIcons
      ∧ (List.lookup s1.name sourceIcons).isSome = true := by
  obtain ⟨e1, i1⟩ := sourceIcons_lookup_by_category s1 h1
  obtain ⟨e2, _⟩ := sourceIcons_lookup_by_category s2 h2
  exact ⟨by rw [e1, e2, hcat], i1⟩

/-- C6 witness: `aguas_vermelhas_total` and `pajeu_total` share the
`total` category and resolve to the identical icon object. -/
theorem C6_shared_category_same_icon_witness :
    (⟨"aguas_vermelhas_total", "./data/aguas_vermelhas_total", "total"⟩ : Source) ∈ dataSources
      ∧ (⟨"pajeu_total", "./data/pajeu_total", "total"⟩ : Source) ∈ dataSources
      ∧ List.lookup "aguas_vermelhas_total" sourceIcons
          = List.lookup "pajeu_total" sourceIcons :=
  ⟨by decide, by decide,
    (C6_shared_category_same_icon
      ⟨"aguas_vermelhas_total", "./data/aguas_vermelhas_total", "total"⟩
      ⟨"pajeu_total", "./data/pajeu_total", "total"⟩
      (by decide) (by decide) rfl).1⟩

/-- C7 (confirmed). For every image index and every (directory, photo
identifier) pair, the asset resolver returns the first index entry whose
path contains `directory/photoIdentifier.png` as a substring; when no
entry contains it, it returns the constructed relative path instead of
failing. -/
theorem C7_asset_resolver_first_match (mods : List (String × String))
    (folderName photoName : String) :
    (∃ pre p post,
        mods = pre ++ p :: post
          ∧ strIncludes p.1 (assetKey folderName photoName) = true
          ∧ (∀ q ∈ pre, strIncludes q.1 (assetKey folderName photoName) = false)
          ∧ getImagePath mods folderName photoName = p.2)
      ∨ ((∀ q ∈ mods, strIncludes q.1 (assetKey folderName photoName) = false)
          ∧ getImagePath mods folderName photoName
              = "./data/" ++ folderName ++ "/" ++ photoName ++ ".png") := by
  induction mods with
  | nil =>
    right
    exact ⟨by simp, rfl⟩
  | cons hd tl ih =>
    by_cases hp : strIncludes hd.1 (assetKey folderName photoName) = true
    · left
      refine ⟨[], hd, tl, rfl, hp, by simp, ?_⟩
      have hfind := @List.find?_cons_of_pos (String × String)
        (fun q => strIncludes q.1 (assetKey folderName photoName)) hd tl hp
      simp [getImagePath, hfind]
    · have hp' : strIncludes hd.1 (assetKey folderName photoName) = false := by
        simpa using hp
      have hfind := @List.find?_cons_of_neg (String × String)
        (fun q => strIncludes q.1 (assetKey folderName photoName)) hd tl hp
      have hstep : getImagePath (hd :: tl) folderName photoName
          = getImagePath tl folderName photoName := by
        simp [getImagePath, hfind]
      rcases ih with ⟨pre, p, post, hsplit, hpp, hpre, hres⟩ | ⟨hall, hres⟩
      · left
        refine ⟨hd :: pre, p, post, by rw [hsplit]; rfl, hpp, ?_, by rw [hstep, hres]⟩
        intro q hq
        rcases List.mem_cons.mp hq with rfl | hq'
        · exact hp'
        · exact hpre q hq'
      · right
        refine ⟨?_, by rw [hstep, hres]⟩
        intro q hq
        rcases List.mem_cons.mp hq with rfl | hq'
        · exact hp'
        · exact hall q hq'

/-- C8 (confirmed). A marker whose source name has no `sourceIcons` entry
falls back to the `aguas_vermelhas_total` icon, which exists, so the
marker still renders with an icon. -/
theorem C8_icon_fallback (name : String)
    (h : List.lookup name sourceIcons = none) :
    iconFor name = List.lookup "aguas_vermelhas_total" sourceIcons
      ∧ (iconFor name).isSome = true := by
  have h1 : iconFor name = List.lookup "aguas_vermelhas_total" sourceIcons := by
    simp [iconFor, h]
  refine ⟨h1, ?_⟩
  rw [h1]
  decide

/-- C8 witness: `unknown_source` is not registered and resolves to the
default source's icon. -/
theorem C8_icon_fallback_witness :
    List.lookup "unknown_source" sourceIcons = none
      ∧ iconFor "unknown_source" = List.lookup "aguas_vermelhas_total" sourceIcons :=
  ⟨by decide, (C8_icon_fallback "unknown_source" (by decide)).1⟩

/-- C9 (confirmed). Clicking a navigation control makes `mapView` exactly
that control's fixed (center, zoom) pair, overwriting any previous
request; once the controller's effect applies it, the rendered view is
that pair; and no user action ever changes `mapView` except a navigation
click, which always sets it to some control's pair — so there is no
action that returns from a directed view to the default view. -/
theorem C9_nav_sets_view (c : NavControl) (a : UserAction) (s : AppState) :
    (step (UserAction.navClick c) s).mapView = some (navTarget c)
      ∧ renderedView (step (UserAction.navClick c) s) = navTarget c
      ∧ ((step a s).mapView = s.mapView
          ∨ ∃ c2, a = UserAction.navClick c2 ∧ (step a s).mapView = some (navTarget c2)) := by
  refine ⟨rfl, rfl, ?_⟩
  cases a with
  | navClick c2 => exact Or.inr ⟨c2, rfl, rfl⟩
  | markerClick p => exact Or.inl rfl
  | closePhoto => exact Or.inl rfl
